import Mathlib

/-!
Verification development for the telemetry-extraction core of
`nvtop-with-tpu` (files `extract_gpuinfo_nvidia.c`, `extract_gpuinfo_tpu.c`,
`extract_gpuinfo_tpu.h`).

The C code is embedded shallowly: vendor library calls (NVML entry points,
the shared TPU usage table) become explicit inputs of type `Option _` or
function parameters, machine integers become `Nat`/`Int`/`ℚ`, and each C
function of interest becomes a pure Lean function over those inputs.
-/

namespace Nvtop

/-! ## Shared dynamic-info record

`struct gpuinfo_dynamic_info` fields touched by the two backends, each a
value paired with its validity flag (`SET_VALID`/`RESET_ALL` pattern).
Memory and utilization fields are `Int` because the TPU backend stores
`int64_t` quantities into them; the NVIDIA backend stores unsigned values,
embedded as coerced `Nat`s. -/

structure DynamicInfo where
  gpu_clock_speed : Nat
  gpu_clock_speed_valid : Bool
  gpu_clock_speed_max : Nat
  gpu_clock_speed_max_valid : Bool
  mem_clock_speed : Nat
  mem_clock_speed_valid : Bool
  mem_clock_speed_max : Nat
  mem_clock_speed_max_valid : Bool
  gpu_util_rate : Int
  gpu_util_rate_valid : Bool
  encoder_rate : Nat
  encoder_rate_valid : Bool
  decoder_rate : Nat
  decoder_rate_valid : Bool
  total_memory : Int
  total_memory_valid : Bool
  used_memory : Int
  used_memory_valid : Bool
  free_memory : Int
  free_memory_valid : Bool
  mem_util_rate : Int
  mem_util_rate_valid : Bool
  pcie_link_gen : Nat
  pcie_link_gen_valid : Bool
  pcie_link_width : Nat
  pcie_link_width_valid : Bool
  pcie_rx : Nat
  pcie_rx_valid : Bool
  pcie_tx : Nat
  pcie_tx_valid : Bool
  fan_speed : Nat
  fan_speed_valid : Bool
  gpu_temp : Nat
  gpu_temp_valid : Bool
  power_draw : Nat
  power_draw_valid : Bool
  power_draw_max : Nat
  power_draw_max_valid : Bool
  deriving DecidableEq, Repr

/-- A dynamic-info record with every value zero and every validity flag
cleared (the state after `RESET_ALL` on a zeroed record). -/
def dyn0 : DynamicInfo :=
  { gpu_clock_speed := 0, gpu_clock_speed_valid := false
    gpu_clock_speed_max := 0, gpu_clock_speed_max_valid := false
    mem_clock_speed := 0, mem_clock_speed_valid := false
    mem_clock_speed_max := 0, mem_clock_speed_max_valid := false
    gpu_util_rate := 0, gpu_util_rate_valid := false
    encoder_rate := 0, encoder_rate_valid := false
    decoder_rate := 0, decoder_rate_valid := false
    total_memory := 0, total_memory_valid := false
    used_memory := 0, used_memory_valid := false
    free_memory := 0, free_memory_valid := false
    mem_util_rate := 0, mem_util_rate_valid := false
    pcie_link_gen := 0, pcie_link_gen_valid := false
    pcie_link_width := 0, pcie_link_width_valid := false
    pcie_rx := 0, pcie_rx_valid := false
    pcie_tx := 0, pcie_tx_valid := false
    fan_speed := 0, fan_speed_valid := false
    gpu_temp := 0, gpu_temp_valid := false
    power_draw := 0, power_draw_valid := false
    power_draw_max := 0, power_draw_max_valid := false }

/-- All validity flags of a record are cleared (the calling convention the
spec demands of `refresh_dynamic_info` callers). -/
def flagsClear (d : DynamicInfo) : Bool :=
  !d.gpu_clock_speed_valid && !d.gpu_clock_speed_max_valid &&
  !d.mem_clock_speed_valid && !d.mem_clock_speed_max_valid &&
  !d.gpu_util_rate_valid && !d.encoder_rate_valid && !d.decoder_rate_valid &&
  !d.total_memory_valid && !d.used_memory_valid && !d.free_memory_valid &&
  !d.mem_util_rate_valid && !d.pcie_link_gen_valid && !d.pcie_link_width_valid &&
  !d.pcie_rx_valid && !d.pcie_tx_valid && !d.fan_speed_valid &&
  !d.gpu_temp_valid && !d.power_draw_valid && !d.power_draw_max_valid

/-! ## NVIDIA backend: dynamic info (`gpuinfo_nvidia_refresh_dynamic_info`)

Each NVML query either succeeds with a value (`some`) or fails (`none`);
on failure the out-parameter — a pointer straight into the record — is
left unwritten by the NVML contract, so the field keeps its prior value.
The C function performs one such independent query per field, in
sequence; the only cross-field dependency is the clock-domain choice
`getMaxClockFrom`, computed from the two current-clock queries before the
max-clock query is issued.  The embedding records each field's outcome
directly, with `chosenClockDomain` embedding that dependency. -/

inductive ClockType where
  | graphics
  | sm
  | mem
  | video
  deriving DecidableEq, Repr

/-- `nvmlMemory_t`: total, free and used bytes. -/
structure NvmlMemory where
  total : Nat
  free : Nat
  used : Nat
  deriving DecidableEq, Repr

/-- `nvmlUtilization_t`: gpu and memory utilization percentages. -/
structure NvmlUtilization where
  gpu : Nat
  memory : Nat
  deriving DecidableEq, Repr

/-- One poll's worth of NVML query outcomes for a device: `none` models a
return status other than `NVML_SUCCESS`. -/
structure NvEnv where
  clockInfo : ClockType → Option Nat
  maxClockInfo : ClockType → Option Nat
  utilizationRates : Option NvmlUtilization
  encoderUtil : Option Nat
  decoderUtil : Option Nat
  memoryInfo : Option NvmlMemory
  currPcieLinkGen : Option Nat
  currPcieLinkWidth : Option Nat
  pcieThroughputRx : Option Nat
  pcieThroughputTx : Option Nat
  fanSpeed : Option Nat
  temperature : Option Nat
  powerUsage : Option Nat
  enforcedPowerLimit : Option Nat

/-- `getMaxClockFrom`: starts at `NVML_CLOCK_GRAPHICS`; switched to
`NVML_CLOCK_SM` when both clock queries succeed with `graphics < sm`, or
when only the SM query succeeds. -/
def chosenClockDomain (env : NvEnv) : ClockType :=
  match env.clockInfo ClockType.graphics, env.clockInfo ClockType.sm with
  | some g, some s => if g < s then ClockType.sm else ClockType.graphics
  | none, some _ => ClockType.sm
  | _, _ => ClockType.graphics

/-- The current GPU clock stored by the two `SET_GPUINFO_DYNAMIC`
statements guarded on `getMaxClockFrom`: the reading of the chosen
domain, when that reading succeeded. -/
def currentClock (env : NvEnv) : Option Nat :=
  match chosenClockDomain env with
  | ClockType.graphics => env.clockInfo ClockType.graphics
  | ClockType.sm => env.clockInfo ClockType.sm
  | _ => none

/-- `gpuinfo_nvidia_refresh_dynamic_info`: `RESET_ALL(valid)` then one
fallible query per field; a successful query overwrites the value and
sets the flag, a failed one leaves value and flag alone (the flag having
just been reset).  `mem_util_rate` is derived as `used * 100 / total` in
unsigned (here `Nat`) arithmetic when the memory-info call succeeds. -/
def gpuinfo_nvidia_refresh_dynamic_info (env : NvEnv) (d : DynamicInfo) :
    DynamicInfo :=
  { gpu_clock_speed := (currentClock env).getD d.gpu_clock_speed
    gpu_clock_speed_valid := (currentClock env).isSome
    gpu_clock_speed_max :=
      (env.maxClockInfo (chosenClockDomain env)).getD d.gpu_clock_speed_max
    gpu_clock_speed_max_valid := (env.maxClockInfo (chosenClockDomain env)).isSome
    mem_clock_speed := (env.clockInfo ClockType.mem).getD d.mem_clock_speed
    mem_clock_speed_valid := (env.clockInfo ClockType.mem).isSome
    mem_clock_speed_max := (env.maxClockInfo ClockType.mem).getD d.mem_clock_speed_max
    mem_clock_speed_max_valid := (env.maxClockInfo ClockType.mem).isSome
    gpu_util_rate :=
      match env.utilizationRates with
      | some u => (u.gpu : Int)
      | none => d.gpu_util_rate
    gpu_util_rate_valid := env.utilizationRates.isSome
    encoder_rate := (env.encoderUtil).getD d.encoder_rate
    encoder_rate_valid := (env.encoderUtil).isSome
    decoder_rate := (env.decoderUtil).getD d.decoder_rate
    decoder_rate_valid := (env.decoderUtil).isSome
    total_memory :=
      match env.memoryInfo with
      | some m => (m.total : Int)
      | none => d.total_memory
    total_memory_valid := env.memoryInfo.isSome
    used_memory :=
      match env.memoryInfo with
      | some m => (m.used : Int)
      | none => d.used_memory
    used_memory_valid := env.memoryInfo.isSome
    free_memory :=
      match env.memoryInfo with
      | some m => (m.free : Int)
      | none => d.free_memory
    free_memory_valid := env.memoryInfo.isSome
    mem_util_rate :=
      match env.memoryInfo with
      | some m => ((m.used * 100 / m.total : Nat) : Int)
      | none => d.mem_util_rate
    mem_util_rate_valid := env.memoryInfo.isSome
    pcie_link_gen := (env.currPcieLinkGen).getD d.pcie_link_gen
    pcie_link_gen_valid := (env.currPcieLinkGen).isSome
    pcie_link_width := (env.currPcieLinkWidth).getD d.pcie_link_width
    pcie_link_width_valid := (env.currPcieLinkWidth).isSome
    pcie_rx := (env.pcieThroughputRx).getD d.pcie_rx
    pcie_rx_valid := (env.pcieThroughputRx).isSome
    pcie_tx := (env.pcieThroughputTx).getD d.pcie_tx
    pcie_tx_valid := (env.pcieThroughputTx).isSome
    fan_speed := (env.fanSpeed).getD d.fan_speed
    fan_speed_valid := (env.fanSpeed).isSome
    gpu_temp := (env.temperature).getD d.gpu_temp
    gpu_temp_valid := (env.temperature).isSome
    power_draw := (env.powerUsage).getD d.power_draw
    power_draw_valid := (env.powerUsage).isSome
    power_draw_max := (env.enforcedPowerLimit).getD d.power_draw_max
    power_draw_max_valid := (env.enforcedPowerLimit).isSome }

/-! ## NVIDIA backend: library load (`gpuinfo_nvidia_init`)

`dlopen`/`dlsym` are modelled by Boolean availability: `resolve` says
which symbol names `dlsym` can find.  Each required entry point is an
ordered list of candidate names (versioned first where the C tries a
`_v2` name); the first unresolvable required entry point jumps to
`init_error_clean_exit`, which `dlclose`s the handle and nulls it.  The
single optional entry point `nvmlDeviceGetProcessUtilization` is looked
up without a check. -/

/-- The required NVML entry points, in the order the C resolves them;
each inner list holds the candidate symbol names tried in order. -/
def requiredEntryCandidates : List (List String) :=
  [ ["nvmlInit_v2", "nvmlInit"],
    ["nvmlShutdown"],
    ["nvmlDeviceGetCount_v2", "nvmlDeviceGetCount"],
    ["nvmlDeviceGetHandleByIndex_v2", "nvmlDeviceGetHandleByIndex"],
    ["nvmlErrorString"],
    ["nvmlDeviceGetName"],
    ["nvmlDeviceGetMaxPcieLinkGeneration"],
    ["nvmlDeviceGetMaxPcieLinkWidth"],
    ["nvmlDeviceGetTemperatureThreshold"],
    ["nvmlDeviceGetClockInfo"],
    ["nvmlDeviceGetMaxClockInfo"],
    ["nvmlDeviceGetUtilizationRates"],
    ["nvmlDeviceGetMemoryInfo"],
    ["nvmlDeviceGetCurrPcieLinkGeneration"],
    ["nvmlDeviceGetCurrPcieLinkWidth"],
    ["nvmlDeviceGetPcieThroughput"],
    ["nvmlDeviceGetFanSpeed"],
    ["nvmlDeviceGetTemperature"],
    ["nvmlDeviceGetPowerUsage"],
    ["nvmlDeviceGetEnforcedPowerLimit"],
    ["nvmlDeviceGetEncoderUtilization"],
    ["nvmlDeviceGetDecoderUtilization"],
    ["nvmlDeviceGetGraphicsRunningProcesses"],
    ["nvmlDeviceGetComputeRunningProcesses"] ]

/-- The one optional entry point ("This one might not be available"). -/
def optionalEntryName : String := "nvmlDeviceGetProcessUtilization"

/-- A required entry point resolves when some candidate name resolves
(`dlsym` on the versioned name, falling back to the unversioned one). -/
def resolveEntry (resolve : String → Bool) (candidates : List String) : Bool :=
  candidates.any resolve

/-- Whether every required entry point resolves; `List.all` stops at the
first failure, mirroring the chain of `goto init_error_clean_exit`. -/
def allRequiredResolved (resolve : String → Bool) : Bool :=
  requiredEntryCandidates.all (resolveEntry resolve)

/-- Observable outcome of `gpuinfo_nvidia_init`: the returned Boolean,
whether `libnvidia_ml_handle` is non-NULL afterwards, and whether the
optional per-process-utilization pointer was populated. -/
structure NvInitResult where
  success : Bool
  handleOpen : Bool
  processUtilAvailable : Bool
  deriving DecidableEq, Repr

/-- `gpuinfo_nvidia_init`: `dlopen` (two names, modelled by one flag),
then the chain of required `dlsym`s — any failure runs
`init_error_clean_exit` (`dlclose`, handle := NULL, return false) — then
the optional `dlsym`, then `nvmlInit()`; a non-`NVML_SUCCESS` status from
`nvmlInit` fails the load (with the handle left open, as in the C). -/
def gpuinfo_nvidia_init (dlopenOk : Bool) (resolve : String → Bool)
    (nvmlInitOk : Bool) : NvInitResult :=
  if !dlopenOk then
    { success := false, handleOpen := false, processUtilAvailable := false }
  else if allRequiredResolved resolve then
    { success := nvmlInitOk, handleOpen := true,
      processUtilAvailable := resolve optionalEntryName }
  else
    { success := false, handleOpen := false, processUtilAvailable := false }

/-! ## NVIDIA backend: device enumeration (`gpuinfo_nvidia_get_device_handles`)

The selection mask is a `Nat` consumed bit by bit (`*mask & 1`,
`*mask >>= 1`); `handleByIndex i` models `nvmlDeviceGetHandleByIndex` for
native index `i` (`none` = non-success status).  The single-block
`calloc` is modelled as always succeeding. -/

/-- One iteration of the enumeration loop at native index `i`: consume a
mask bit; when it is set and the handle resolves, append the device. -/
def enumStep (handleByIndex : Nat → Option Nat) (st : Nat × List Nat)
    (i : Nat) : Nat × List Nat :=
  let mask := st.1
  let devs := st.2
  if mask % 2 = 0 then (mask / 2, devs)
  else
    match handleByIndex i with
    | some h => (mask / 2, devs ++ [h])
    | none => (mask / 2, devs)

/-- `gpuinfo_nvidia_get_device_handles`: fails when the library is not
loaded or `nvmlDeviceGetCount` fails; otherwise iterates native indices
`0 .. num_devices-1` with `enumStep`.  Returns the appended device list
(`*count` is its length) and the final mask value. -/
def gpuinfo_nvidia_get_device_handles (libLoaded : Bool)
    (deviceCount : Option Nat) (handleByIndex : Nat → Option Nat)
    (mask : Nat) : Option (List Nat × Nat) :=
  if !libLoaded then none
  else
    match deviceCount with
    | none => none
    | some n =>
      let st := (List.range n).foldl (enumStep handleByIndex) (mask, [])
      some (st.2, st.1)

/-! ## NVIDIA backend: running-process discovery (`gpuinfo_nvidia_get_running_processes`)

The growth-on-short-read loops (`retry_query_graphical`,
`retry_query_compute`).  The vendor model is the claim's: a query
offered capacity `cap` for a category with true count `t` returns
`NVML_ERROR_INSUFFICIENT_SIZE` exactly when `cap < t`, and otherwise
succeeds writing `t`.  The compute query is offered the storage after
the `graphical_count` graphics entries, so its capacity is
`array_size - graphical_count`.

`COMMON_PROCESS_LINEAR_REALLOC_INC` lives in `nvtop/common.h`, which is
not part of the sources here; modelled from the spec as a fixed positive
increment `inc` (the `inc = 0` guard below is only there to keep the
function total; the source's increment is a positive constant). -/

/-- One `goto`-retry loop: capacity offered is `size - offsetUsed`; while
the vendor reports insufficient size, grow `size` by `inc` and retry. -/
def growProcessBuffer (inc offsetUsed trueCount size : Nat) : Nat :=
  if _h : size - offsetUsed < trueCount then
    if _hinc : 0 < inc then growProcessBuffer inc offsetUsed trueCount (size + inc)
    else size
  else size
termination_by offsetUsed + trueCount - size
decreasing_by omega

/-- Outcome of `gpuinfo_nvidia_get_running_processes` under the vendor
model: the two category counts, their total, and the final shared-buffer
capacity `array_size`. -/
structure NvProcessQueryResult where
  graphical_count : Nat
  compute_count : Nat
  processes_count : Nat
  array_size : Nat
  deriving DecidableEq, Repr

/-- `gpuinfo_nvidia_get_running_processes`, discovery phase: the graphics
loop grows the buffer until it holds the `g` graphics entries, then the
compute loop grows it until the tail after those entries holds the `c`
compute entries. -/
def gpuinfo_nvidia_get_running_processes (inc g c size0 : Nat) :
    NvProcessQueryResult :=
  let size1 := growProcessBuffer inc 0 g size0
  let size2 := growProcessBuffer inc g c size1
  { graphical_count := g, compute_count := c,
    processes_count := g + c, array_size := size2 }

/-! ## NVIDIA backend: per-process utilization (`gpuinfo_nvidia_get_process_utilization`)

A sample is `nvmlProcessUtilizationSample_t`; a process entry carries the
fields this function can touch (`SET_GPUINFO_PROCESS` on `gpu_usage`,
`encode_usage`, `decode_usage` — nothing else of `struct gpu_process` is
read or written, except `pid`, which is only read). -/

structure Sample where
  pid : Int
  timeStamp : Nat
  smUtil : Nat
  memUtil : Nat
  encUtil : Nat
  decUtil : Nat
  deriving DecidableEq, Repr

structure GpuProcess where
  pid : Int
  gpu_usage : Nat
  gpu_usage_valid : Bool
  encode_usage : Nat
  encode_usage_valid : Bool
  decode_usage : Nat
  decode_usage_valid : Bool
  deriving DecidableEq, Repr

/-- The entry-independent half of the inner loop's acceptance test: the
three utilization fields at most 100 and a timestamp strictly newer than
the watermark in effect when the request was issued (`wm` is read from
`gpu_info->last_utilization_timestamp`, which is not written until after
the loop). -/
def utilTimeOk (wm : Nat) (s : Sample) : Bool :=
  s.smUtil ≤ 100 && s.encUtil ≤ 100 && s.decUtil ≤ 100 && wm < s.timeStamp

/-- The acceptance test of the inner loop, from the `if`: matching PID
conjoined with `utilTimeOk`. -/
def acceptCond (wm : Nat) (s : Sample) (p : GpuProcess) : Bool :=
  s.pid == p.pid && utilTimeOk wm s

/-- The three `SET_GPUINFO_PROCESS` updates on a matched entry. -/
def updateProcess (s : Sample) (p : GpuProcess) : GpuProcess :=
  { p with gpu_usage := s.smUtil, gpu_usage_valid := true,
           encode_usage := s.encUtil, encode_usage_valid := true,
           decode_usage := s.decUtil, decode_usage_valid := true }

/-- The inner `for (j ...; !process_matched && j < n; ...)` loop for one
sample: scan for the first entry passing `acceptCond`, update it, report
whether a match happened. -/
def matchSampleAux (wm : Nat) (s : Sample) :
    List GpuProcess → List GpuProcess × Bool
  | [] => ([], false)
  | p :: ps =>
    if acceptCond wm s p then (updateProcess s p :: ps, true)
    else
      let r := matchSampleAux wm s ps
      (p :: r.1, r.2)

/-- The outer `for (i ...)` loop over the returned samples, carrying the
process array and `newest_timestamp_candidate`; the candidate is bumped
to a matched sample's timestamp when that timestamp exceeds it. -/
def processSamples (wm : Nat) :
    List Sample → List GpuProcess → Nat → List GpuProcess × Nat
  | [], ps, cand => (ps, cand)
  | s :: rest, ps, cand =>
    let r := matchSampleAux wm s ps
    let cand' := if r.2 && cand < s.timeStamp then s.timeStamp else cand
    processSamples wm rest r.1 cand'

/-- `gpuinfo_nvidia_get_process_utilization`: nothing happens when the
process list is empty or the optional entry point is absent;
`queryResult = none` models every early-exit of the two-call protocol
(probe status not `NVML_ERROR_INSUFFICIENT_SIZE`, or the sized fetch not
`NVML_SUCCESS`); otherwise the sample loop runs and the watermark is
advanced to the final candidate.  Returns the process array and the new
`last_utilization_timestamp`. -/
def gpuinfo_nvidia_get_process_utilization (entryPointAvailable : Bool)
    (queryResult : Option (List Sample)) (wm : Nat)
    (ps : List GpuProcess) : List GpuProcess × Nat :=
  if ps.length ≠ 0 ∧ entryPointAvailable then
    match queryResult with
    | none => (ps, wm)
    | some samples => processSamples wm samples ps wm
  else (ps, wm)

/-- A sampler poll's inputs: entry-point availability, protocol outcome,
and the freshly discovered process list of that poll. -/
structure SamplerCall where
  available : Bool
  queryResult : Option (List Sample)
  processes : List GpuProcess

/-- Iterate the sampler over a sequence of polls, threading only the
device's watermark (the process list is rebuilt every poll). -/
def runSampler : List SamplerCall → Nat → Nat
  | [], wm => wm
  | call :: rest, wm =>
    runSampler rest
      (gpuinfo_nvidia_get_process_utilization call.available call.queryResult
        wm call.processes).2

/-- Acceptance of a sample, stated against the discovery list as a whole:
its PID appears among the discovered entries, its three utilization
fields are at most 100, and its timestamp is strictly newer than the
watermark in effect when the request was issued. -/
def acceptedSample (wm : Nat) (ps : List GpuProcess) (s : Sample) : Bool :=
  (ps.any fun p => s.pid == p.pid) && utilTimeOk wm s

/-- The samples accepted by one full sampler call (empty on every path
that never reaches the sample loop). -/
def callAccepted (entryPointAvailable : Bool)
    (queryResult : Option (List Sample)) (wm : Nat)
    (ps : List GpuProcess) : List Sample :=
  if ps.length ≠ 0 ∧ entryPointAvailable then
    match queryResult with
    | none => []
    | some samples => samples.filter (acceptedSample wm ps)
  else []

/-- The update the claim describes for an accepted sample: overwrite the
first discovery-list entry whose PID equals the sample's, leaving every
other entry alone.  (Spec-side definition, written from the claim's
words; compared against the code's `matchSampleAux` below.) -/
def specAcceptUpdate (s : Sample) : List GpuProcess → List GpuProcess
  | [] => []
  | p :: ps =>
    if s.pid == p.pid then updateProcess s p :: ps
    else p :: specAcceptUpdate s ps

/-! ## TPU backend (`extract_gpuinfo_tpu.c`)

`struct tpu_chip_usage_data` from `extract_gpuinfo_tpu.h`; the
`duty_cycle_pct` double is embedded as `ℚ` (exact for every value the
claims exercise), the `int64_t` fields as `Int`, the 8-byte `name` as a
`String` of at most 7 characters. -/

structure TpuChipUsageData where
  name : String
  device_id : Int
  memory_usage : Int
  total_memory : Int
  duty_cycle_pct : ℚ
  deriving DecidableEq, Repr

/-! ### Line parsing: `sscanf(line, "%ld %ld %ld %lf %7[^,]", ...)`

`%ld` and `%lf` skip leading whitespace and require at least one digit;
the literal spaces in the format skip whitespace; `%7[^,]` takes between
1 and 7 characters different from `','`.  (The `%lf` model covers plain
decimal notation, which is what the external script emits via
`{duty_cycle_pct:.4f}`-style formatting.) -/

/-- The `isspace` set used by `sscanf`. -/
def isSscanfSpace (c : Char) : Bool :=
  c == ' ' || c == '\t' || c == '\n' || c == '\r' ||
    c == Char.ofNat 11 || c == Char.ofNat 12

def skipWs : List Char → List Char
  | [] => []
  | c :: cs => if isSscanfSpace c then skipWs cs else c :: cs

/-- Digit-run value (the characters are assumed to be digits). -/
def digitsToNat (ds : List Char) : Nat :=
  ds.foldl (fun a c => a * 10 + (c.toNat - 48)) 0

/-- `%ld`: skip whitespace, optional sign, at least one digit. -/
def parseLong (cs : List Char) : Option (Int × List Char) :=
  let cs := skipWs cs
  let core : List Char → Option (Nat × List Char) := fun l =>
    let sp := l.span Char.isDigit
    if sp.1.isEmpty then none else some (digitsToNat sp.1, sp.2)
  match cs with
  | '-' :: rest =>
    match core rest with
    | some r => some (-(r.1 : Int), r.2)
    | none => none
  | '+' :: rest =>
    match core rest with
    | some r => some ((r.1 : Int), r.2)
    | none => none
  | _ =>
    match core cs with
    | some r => some ((r.1 : Int), r.2)
    | none => none

/-- `%lf` (decimal notation): skip whitespace, optional sign, digits with
an optional fractional part, at least one digit overall. -/
def parseDouble (cs : List Char) : Option (ℚ × List Char) :=
  let cs := skipWs cs
  let core : List Char → Option (ℚ × List Char) := fun l =>
    let ip := l.span Char.isDigit
    match ip.2 with
    | '.' :: afterDot =>
      let fp := afterDot.span Char.isDigit
      if ip.1.isEmpty ∧ fp.1.isEmpty then none
      else
        some (mkRat (digitsToNat ip.1 * 10 ^ fp.1.length + digitsToNat fp.1)
          (10 ^ fp.1.length), fp.2)
    | _ =>
      if ip.1.isEmpty then none else some (mkRat (digitsToNat ip.1) 1, ip.2)
  match cs with
  | '-' :: rest =>
    match core rest with
    | some r => some (-r.1, r.2)
    | none => none
  | '+' :: rest => core rest
  | _ => core cs

/-- `%7[^,]`: between 1 and 7 characters different from `','`. -/
def parseName (cs : List Char) : Option (String × List Char) :=
  let taken := (cs.takeWhile fun c => c != ',').take 7
  if taken.isEmpty then none
  else some (String.mk taken, cs.drop taken.length)

/-- One output line of the external script, parsed as the `sscanf` does;
`some` exactly when all five conversions succeed. -/
def parseLine (line : String) : Option TpuChipUsageData :=
  match parseLong line.data with
  | none => none
  | some r1 =>
    match parseLong r1.2 with
    | none => none
    | some r2 =>
      match parseLong r2.2 with
      | none => none
      | some r3 =>
        match parseDouble r3.2 with
        | none => none
        | some r4 =>
          match parseName (skipWs r4.2) with
          | none => none
          | some r5 =>
            some { name := r5.1, device_id := r1.1, memory_usage := r2.1,
                   total_memory := r3.1, duty_cycle_pct := r4.1 }

/-! ### The poll cycle (`populate_tpu_data`) and the worker loop -/

/-- Globals the poll cycle touches: `tpu_chip_count` (an `int64_t`, `-1`
before init), the mutex-guarded `latest_chips_usage_data` table, and the
`thread_should_exit` flag. -/
structure TpuState where
  chipCount : Int
  table : List TpuChipUsageData
  threadShouldExit : Bool
  deriving DecidableEq, Repr

/-- The sentinel first line announcing the missing python package. -/
def tpuSentinel : String := "tpu_info missing"

/-- The `while (fgets(...))` loop of `populate_tpu_data` over the
(newline-stripped) output lines, carrying `id`.  Each iteration: stop
when `id` has reached the chip count; detect the sentinel on the first
line (disable the backend and stop); otherwise parse the line — a
well-formed line overwrites slot `id` under the lock, a malformed one is
only logged — and increment `id` either way. -/
def populateLoop : List String → Nat → TpuState → Nat × TpuState
  | [], id, st => (id, st)
  | line :: rest, id, st =>
    if st.chipCount = 0 ∨ (id : Int) ≥ st.chipCount then (id, st)
    else if id = 0 ∧ line = tpuSentinel then
      (id, { st with threadShouldExit := true, chipCount := 0 })
    else
      match parseLine line with
      | some d => populateLoop rest (id + 1) { st with table := st.table.set id d }
      | none => populateLoop rest (id + 1) st

/-- `populate_tpu_data`: immediately false when no chips are known;
otherwise run the line loop and score the cycle by `id == tpu_chip_count`
(against the possibly sentinel-zeroed count). -/
def populate_tpu_data (lines : List String) (st : TpuState) :
    Bool × TpuState :=
  if st.chipCount ≤ 0 then (false, st)
  else
    let r := populateLoop lines 0 st
    (decide ((r.1 : Int) = r.2.chipCount), r.2)

/-- `reset_tpu_statistics`: under the lock, zero each slot's memory usage
and duty cycle; a full reset additionally clears the name (to "N/A"),
device id and total memory. -/
def reset_tpu_statistics (fully : Bool) (table : List TpuChipUsageData) :
    List TpuChipUsageData :=
  table.map fun c =>
    if fully then
      { c with memory_usage := 0, duty_cycle_pct := 0,
               name := "N/A", device_id := 0, total_memory := 0 }
    else { c with memory_usage := 0, duty_cycle_pct := 0 }

/-- One iteration of `query_tpu_data_thread_fn`'s body (the sleep/cadence
code aside): update `fails_in_a_row` from this cycle's score — reset to 0
on success, otherwise incremented and capped at 10 — and soft-reset the
statistics once it reaches 2. -/
def query_tpu_worker_step (success : Bool) (fails : Nat)
    (table : List TpuChipUsageData) : Nat × List TpuChipUsageData :=
  let f := if success then 0 else min (fails + 1) 10
  if 2 ≤ f then (f, reset_tpu_statistics false table) else (f, table)

/-- `gpuinfo_tpu_refresh_dynamic_info`: return immediately when the
device's index is at or beyond `tpu_chip_count`; otherwise copy the
device's slot out under the lock and publish the five derived fields
(the divisor clamped to at least one, both utilizations rounded). -/
def gpuinfo_tpu_refresh_dynamic_info (chipCount : Int)
    (table : List TpuChipUsageData) (device_id : Int) (d : DynamicInfo) :
    DynamicInfo :=
  if device_id ≥ chipCount then d
  else
    match table.get? device_id.toNat with
    | none => d
    | some u =>
      let mem_util : Int :=
        round ((100 : ℚ) * (u.memory_usage : ℚ) / ((max 1 u.total_memory : Int) : ℚ))
      let tpu_util : Int := round u.duty_cycle_pct
      { d with gpu_util_rate := tpu_util, gpu_util_rate_valid := true,
               mem_util_rate := mem_util, mem_util_rate_valid := true,
               total_memory := u.total_memory, total_memory_valid := true,
               used_memory := u.memory_usage, used_memory_valid := true,
               free_memory := u.total_memory - u.memory_usage,
               free_memory_valid := true }

/-! ### Concrete data used by examples and witnesses -/

/-- First line of the spec's two-line external-source example. -/
def tpuLine1 : String := "0 100 1000 12.5000 chip1"

/-- Second line of the spec's two-line external-source example. -/
def tpuLine2 : String := "1 50 1000 5.0000 chip2"

/-- What `tpuLine1` parses to (a duty cycle of 12.5 percent). -/
def chip1Data : TpuChipUsageData :=
  { name := "chip1", device_id := 0, memory_usage := 100,
    total_memory := 1000, duty_cycle_pct := mkRat 25 2 }

/-- What `tpuLine2` parses to (a duty cycle of 5 percent). -/
def chip2Data : TpuChipUsageData :=
  { name := "chip2", device_id := 1, memory_usage := 50,
    total_memory := 1000, duty_cycle_pct := mkRat 5 1 }

/-- A freshly full-reset slot (the state `gpuinfo_tpu_init` leaves). -/
def blankChip : TpuChipUsageData :=
  { name := "N/A", device_id := 0, memory_usage := 0,
    total_memory := 0, duty_cycle_pct := 0 }

/-- A symbol-resolution environment in which one required entry point
(`nvmlDeviceGetFanSpeed`) is missing. -/
def resolveMissingFanSpeed : String → Bool :=
  fun nm => !(nm == "nvmlDeviceGetFanSpeed")

/-- A symbol-resolution environment in which every symbol except the
optional `nvmlDeviceGetProcessUtilization` resolves. -/
def resolveMissingOptional : String → Bool :=
  fun nm => !(nm == optionalEntryName)

/-- The spec's clock example: graphics domain reads 1000, SM domain reads
1200; the two max-clock queries would answer 1400 and 1500. -/
def envClockExample : NvEnv :=
  { clockInfo := fun t =>
      match t with
      | ClockType.graphics => some 1000
      | ClockType.sm => some 1200
      | _ => none
    maxClockInfo := fun t =>
      match t with
      | ClockType.graphics => some 1400
      | ClockType.sm => some 1500
      | _ => none
    utilizationRates := none
    encoderUtil := none
    decoderUtil := none
    memoryInfo := none
    currPcieLinkGen := none
    currPcieLinkWidth := none
    pcieThroughputRx := none
    pcieThroughputTx := none
    fanSpeed := none
    temperature := none
    powerUsage := none
    enforcedPowerLimit := none }

/-! ### Spec-side validity predicates (the claim's "flag set iff the
query succeeded this poll, failed queries leave the value untouched") -/

/-- The NVIDIA half of the field-validity property: after a refresh,
every validity flag equals success of its underlying query this poll
(for the current GPU clock: of at least one of its two domain queries),
and a failed query leaves the previously stored value untouched. -/
def nvidiaFieldValidity (env : NvEnv) (d : DynamicInfo) : Prop :=
  (gpuinfo_nvidia_refresh_dynamic_info env d).gpu_clock_speed_valid
      = ((env.clockInfo ClockType.graphics).isSome ||
          (env.clockInfo ClockType.sm).isSome) ∧
  (gpuinfo_nvidia_refresh_dynamic_info env d).gpu_clock_speed_max_valid
      = (env.maxClockInfo (chosenClockDomain env)).isSome ∧
  (gpuinfo_nvidia_refresh_dynamic_info env d).mem_clock_speed_valid
      = (env.clockInfo ClockType.mem).isSome ∧
  (gpuinfo_nvidia_refresh_dynamic_info env d).mem_clock_speed_max_valid
      = (env.maxClockInfo ClockType.mem).isSome ∧
  (gpuinfo_nvidia_refresh_dynamic_info env d).gpu_util_rate_valid
      = env.utilizationRates.isSome ∧
  (gpuinfo_nvidia_refresh_dynamic_info env d).encoder_rate_valid
      = env.encoderUtil.isSome ∧
  (gpuinfo_nvidia_refresh_dynamic_info env d).decoder_rate_valid
      = env.decoderUtil.isSome ∧
  (gpuinfo_nvidia_refresh_dynamic_info env d).total_memory_valid
      = env.memoryInfo.isSome ∧
  (gpuinfo_nvidia_refresh_dynamic_info env d).used_memory_valid
      = env.memoryInfo.isSome ∧
  (gpuinfo_nvidia_refresh_dynamic_info env d).free_memory_valid
      = env.memoryInfo.isSome ∧
  (gpuinfo_nvidia_refresh_dynamic_info env d).mem_util_rate_valid
      = env.memoryInfo.isSome ∧
  (gpuinfo_nvidia_refresh_dynamic_info env d).pcie_link_gen_valid
      = env.currPcieLinkGen.isSome ∧
  (gpuinfo_nvidia_refresh_dynamic_info env d).pcie_link_width_valid
      = env.currPcieLinkWidth.isSome ∧
  (gpuinfo_nvidia_refresh_dynamic_info env d).pcie_rx_valid
      = env.pcieThroughputRx.isSome ∧
  (gpuinfo_nvidia_refresh_dynamic_info env d).pcie_tx_valid
      = env.pcieThroughputTx.isSome ∧
  (gpuinfo_nvidia_refresh_dynamic_info env d).fan_speed_valid
      = env.fanSpeed.isSome ∧
  (gpuinfo_nvidia_refresh_dynamic_info env d).gpu_temp_valid
      = env.temperature.isSome ∧
  (gpuinfo_nvidia_refresh_dynamic_info env d).power_draw_valid
      = env.powerUsage.isSome ∧
  (gpuinfo_nvidia_refresh_dynamic_info env d).power_draw_max_valid
      = env.enforcedPowerLimit.isSome ∧
  (env.clockInfo ClockType.graphics = none → env.clockInfo ClockType.sm = none →
    (gpuinfo_nvidia_refresh_dynamic_info env d).gpu_clock_speed = d.gpu_clock_speed) ∧
  (env.maxClockInfo (chosenClockDomain env) = none →
    (gpuinfo_nvidia_refresh_dynamic_info env d).gpu_clock_speed_max = d.gpu_clock_speed_max) ∧
  (env.clockInfo ClockType.mem = none →
    (gpuinfo_nvidia_refresh_dynamic_info env d).mem_clock_speed = d.mem_clock_speed) ∧
  (env.maxClockInfo ClockType.mem = none →
    (gpuinfo_nvidia_refresh_dynamic_info env d).mem_clock_speed_max = d.mem_clock_speed_max) ∧
  (env.utilizationRates = none →
    (gpuinfo_nvidia_refresh_dynamic_info env d).gpu_util_rate = d.gpu_util_rate) ∧
  (env.encoderUtil = none →
    (gpuinfo_nvidia_refresh_dynamic_info env d).encoder_rate = d.encoder_rate) ∧
  (env.decoderUtil = none →
    (gpuinfo_nvidia_refresh_dynamic_info env d).decoder_rate = d.decoder_rate) ∧
  (env.memoryInfo = none →
    (gpuinfo_nvidia_refresh_dynamic_info env d).total_memory = d.total_memory ∧
    (gpuinfo_nvidia_refresh_dynamic_info env d).used_memory = d.used_memory ∧
    (gpuinfo_nvidia_refresh_dynamic_info env d).free_memory = d.free_memory ∧
    (gpuinfo_nvidia_refresh_dynamic_info env d).mem_util_rate = d.mem_util_rate) ∧
  (env.currPcieLinkGen = none →
    (gpuinfo_nvidia_refresh_dynamic_info env d).pcie_link_gen = d.pcie_link_gen) ∧
  (env.currPcieLinkWidth = none →
    (gpuinfo_nvidia_refresh_dynamic_info env d).pcie_link_width = d.pcie_link_width) ∧
  (env.pcieThroughputRx = none →
    (gpuinfo_nvidia_refresh_dynamic_info env d).pcie_rx = d.pcie_rx) ∧
  (env.pcieThroughputTx = none →
    (gpuinfo_nvidia_refresh_dynamic_info env d).pcie_tx = d.pcie_tx) ∧
  (env.fanSpeed = none →
    (gpuinfo_nvidia_refresh_dynamic_info env d).fan_speed = d.fan_speed) ∧
  (env.temperature = none →
    (gpuinfo_nvidia_refresh_dynamic_info env d).gpu_temp = d.gpu_temp) ∧
  (env.powerUsage = none →
    (gpuinfo_nvidia_refresh_dynamic_info env d).power_draw = d.power_draw) ∧
  (env.enforcedPowerLimit = none →
    (gpuinfo_nvidia_refresh_dynamic_info env d).power_draw_max = d.power_draw_max)

/-- The TPU half of the field-validity property, under the caller-side
convention of a zero-initialized validity set: after a refresh the five
fields the backend can populate are flagged exactly when the device
index is in range and its slot was read, and every other flag stays
clear. -/
def tpuFieldValidity (chipCount : Int) (table : List TpuChipUsageData)
    (device_id : Int) (d : DynamicInfo) : Prop :=
  (gpuinfo_tpu_refresh_dynamic_info chipCount table device_id d).gpu_util_rate_valid
      = (decide (device_id < chipCount) && (table.get? device_id.toNat).isSome) ∧
  (gpuinfo_tpu_refresh_dynamic_info chipCount table device_id d).mem_util_rate_valid
      = (decide (device_id < chipCount) && (table.get? device_id.toNat).isSome) ∧
  (gpuinfo_tpu_refresh_dynamic_info chipCount table device_id d).total_memory_valid
      = (decide (device_id < chipCount) && (table.get? device_id.toNat).isSome) ∧
  (gpuinfo_tpu_refresh_dynamic_info chipCount table device_id d).used_memory_valid
      = (decide (device_id < chipCount) && (table.get? device_id.toNat).isSome) ∧
  (gpuinfo_tpu_refresh_dynamic_info chipCount table device_id d).free_memory_valid
      = (decide (device_id < chipCount) && (table.get? device_id.toNat).isSome) ∧
  (gpuinfo_tpu_refresh_dynamic_info chipCount table device_id d).gpu_clock_speed_valid = false ∧
  (gpuinfo_tpu_refresh_dynamic_info chipCount table device_id d).gpu_clock_speed_max_valid = false ∧
  (gpuinfo_tpu_refresh_dynamic_info chipCount table device_id d).mem_clock_speed_valid = false ∧
  (gpuinfo_tpu_refresh_dynamic_info chipCount table device_id d).mem_clock_speed_max_valid = false ∧
  (gpuinfo_tpu_refresh_dynamic_info chipCount table device_id d).encoder_rate_valid = false ∧
  (gpuinfo_tpu_refresh_dynamic_info chipCount table device_id d).decoder_rate_valid = false ∧
  (gpuinfo_tpu_refresh_dynamic_info chipCount table device_id d).pcie_link_gen_valid = false ∧
  (gpuinfo_tpu_refresh_dynamic_info chipCount table device_id d).pcie_link_width_valid = false ∧
  (gpuinfo_tpu_refresh_dynamic_info chipCount table device_id d).pcie_rx_valid = false ∧
  (gpuinfo_tpu_refresh_dynamic_info chipCount table device_id d).pcie_tx_valid = false ∧
  (gpuinfo_tpu_refresh_dynamic_info chipCount table device_id d).fan_speed_valid = false ∧
  (gpuinfo_tpu_refresh_dynamic_info chipCount table device_id d).gpu_temp_valid = false ∧
  (gpuinfo_tpu_refresh_dynamic_info chipCount table device_id d).power_draw_valid = false ∧
  (gpuinfo_tpu_refresh_dynamic_info chipCount table device_id d).power_draw_max_valid = false

/-! ## Helper lemmas: the utilization sampler -/

theorem matchSampleAux_map_pid (wm : Nat) (s : Sample) (ps : List GpuProcess) :
    ((matchSampleAux wm s ps).1).map (fun p => p.pid) = ps.map (fun p => p.pid) := by
  induction ps with
  | nil => rfl
  | cons p ps ih =>
    cases h : acceptCond wm s p <;>
      simp [matchSampleAux, h, updateProcess, ih]

theorem matchSampleAux_matched (wm : Nat) (s : Sample) (ps : List GpuProcess) :
    (matchSampleAux wm s ps).2 = ps.any (acceptCond wm s) := by
  induction ps with
  | nil => rfl
  | cons p ps ih =>
    cases h : acceptCond wm s p <;>
      simp [matchSampleAux, h, List.any_cons, ih]

theorem any_acceptCond (wm : Nat) (s : Sample) (ps : List GpuProcess) :
    ps.any (acceptCond wm s) = acceptedSample wm ps s := by
  unfold acceptedSample
  induction ps with
  | nil => simp
  | cons p ps ih =>
    rw [List.any_cons, List.any_cons, ih]
    unfold acceptCond
    cases utilTimeOk wm s <;> cases s.pid == p.pid <;>
      cases ps.any fun p => s.pid == p.pid <;> simp

theorem matchSampleAux_fst (wm : Nat) (s : Sample) (ps : List GpuProcess) :
    (matchSampleAux wm s ps).1
      = if acceptedSample wm ps s then specAcceptUpdate s ps else ps := by
  induction ps with
  | nil => simp [matchSampleAux, acceptedSample]
  | cons p ps ih =>
    cases hu : utilTimeOk wm s with
    | false =>
      have h1 : acceptCond wm s p = false := by simp [acceptCond, hu]
      have h2 : acceptedSample wm ps s = false := by simp [acceptedSample, hu]
      have h3 : acceptedSample wm (p :: ps) s = false := by simp [acceptedSample, hu]
      simp [matchSampleAux, h1, h3, ih, h2]
    | true =>
      cases hp : s.pid == p.pid with
      | true =>
        have h1 : acceptCond wm s p = true := by simp [acceptCond, hu, hp]
        have h3 : acceptedSample wm (p :: ps) s = true := by
          simp [acceptedSample, hu, List.any_cons, hp]
        simp [matchSampleAux, h1, h3, specAcceptUpdate, hp]
      | false =>
        have h1 : acceptCond wm s p = false := by simp [acceptCond, hp]
        have h3 : acceptedSample wm (p :: ps) s = acceptedSample wm ps s := by
          simp [acceptedSample, List.any_cons, hp]
        rw [show (matchSampleAux wm s (p :: ps)).1
              = p :: (matchSampleAux wm s ps).1 by simp [matchSampleAux, h1]]
        rw [ih, h3, show specAcceptUpdate s (p :: ps)
              = p :: specAcceptUpdate s ps by simp [specAcceptUpdate, hp]]
        cases acceptedSample wm ps s <;> simp

theorem any_pid_eq_any_map (t : Int) (l : List GpuProcess) :
    (l.any fun p => t == p.pid) = ((l.map fun p => p.pid).any fun x => t == x) := by
  induction l with
  | nil => rfl
  | cons p ps ih => simp [List.any_cons, ih]

theorem acceptedSample_of_map_pid (wm : Nat) (s : Sample)
    {ps qs : List GpuProcess}
    (h : ps.map (fun p => p.pid) = qs.map (fun p => p.pid)) :
    acceptedSample wm ps s = acceptedSample wm qs s := by
  unfold acceptedSample
  rw [any_pid_eq_any_map, any_pid_eq_any_map, h]

theorem processSamples_snd (wm : Nat) (samples : List Sample) :
    ∀ (ps : List GpuProcess) (cand : Nat),
    (processSamples wm samples ps cand).2
      = samples.foldl
          (fun a s => if acceptedSample wm ps s then max a s.timeStamp else a)
          cand := by
  induction samples with
  | nil => intro ps cand; rfl
  | cons s rest ih =>
    intro ps cand
    rw [show processSamples wm (s :: rest) ps cand
          = processSamples wm rest (matchSampleAux wm s ps).1
              (if (matchSampleAux wm s ps).2 && cand < s.timeStamp
               then s.timeStamp else cand) from rfl]
    rw [ih, List.foldl_cons]
    have hstab : ∀ s' : Sample,
        acceptedSample wm (matchSampleAux wm s ps).1 s' = acceptedSample wm ps s' :=
      fun s' => acceptedSample_of_map_pid wm s' (matchSampleAux_map_pid wm s ps)
    have hcand : (if (matchSampleAux wm s ps).2 && cand < s.timeStamp
                  then s.timeStamp else cand)
        = (if acceptedSample wm ps s then max cand s.timeStamp else cand) := by
      rw [matchSampleAux_matched, any_acceptCond]
      cases acceptedSample wm ps s with
      | false => simp
      | true =>
        simp only [Bool.true_and]
        rcases Nat.lt_or_ge cand s.timeStamp with h | h
        · simp [h, Nat.max_eq_right (Nat.le_of_lt h)]
        · have : ¬ cand < s.timeStamp := Nat.not_lt.mpr h
          simp [this, Nat.max_eq_left h]
    rw [hcand]
    exact List.foldl_ext _ _ _ fun a s' _ => by rw [hstab s']

theorem foldl_filter_samples (p : Sample → Bool) (f : Nat → Sample → Nat)
    (l : List Sample) : ∀ init : Nat,
    (l.filter p).foldl f init
      = l.foldl (fun x y => if p y then f x y else x) init := by
  induction l with
  | nil => intro init; rfl
  | cons s rest ih =>
    intro init
    cases h : p s <;> simp [List.filter_cons, h, ih]

theorem le_foldl_sampleMax (l : List Sample) :
    ∀ a : Nat, a ≤ l.foldl (fun x s => max x s.timeStamp) a := by
  induction l with
  | nil => intro a; exact Nat.le_refl a
  | cons s rest ih =>
    intro a
    calc a ≤ max a s.timeStamp := Nat.le_max_left _ _
    _ ≤ rest.foldl (fun x s => max x s.timeStamp) (max a s.timeStamp) := ih _

/-- One sampler call computes the new watermark as the running maximum,
seeded with the old watermark, over the timestamps of exactly the
accepted samples. -/
theorem sampler_call_watermark (available : Bool)
    (queryResult : Option (List Sample)) (wm : Nat) (ps : List GpuProcess) :
    (gpuinfo_nvidia_get_process_utilization available queryResult wm ps).2
      = (callAccepted available queryResult wm ps).foldl
          (fun a s => max a s.timeStamp) wm := by
  unfold gpuinfo_nvidia_get_process_utilization callAccepted
  split
  · cases queryResult with
    | none => rfl
    | some samples =>
      simp only
      rw [processSamples_snd, foldl_filter_samples]
  · rfl

theorem sampler_call_monotone (available : Bool)
    (queryResult : Option (List Sample)) (wm : Nat) (ps : List GpuProcess) :
    wm ≤ (gpuinfo_nvidia_get_process_utilization available queryResult wm ps).2 := by
  rw [sampler_call_watermark]
  exact le_foldl_sampleMax _ wm

theorem runSampler_monotone (calls : List SamplerCall) :
    ∀ wm : Nat, wm ≤ runSampler calls wm := by
  induction calls with
  | nil => intro wm; exact Nat.le_refl wm
  | cons call rest ih =>
    intro wm
    exact Nat.le_trans
      (sampler_call_monotone call.available call.queryResult wm call.processes)
      (ih _)

/-! ## Helper lemmas: dynamic-info refresh -/

theorem currentClock_isSome (env : NvEnv) :
    (currentClock env).isSome
      = ((env.clockInfo ClockType.graphics).isSome ||
          (env.clockInfo ClockType.sm).isSome) := by
  unfold currentClock chosenClockDomain
  cases hg : env.clockInfo ClockType.graphics <;>
    cases hs : env.clockInfo ClockType.sm <;>
    simp [hg, hs]
  rename_i g s
  by_cases hlt : g < s <;> simp [hlt, hg, hs]

theorem currentClock_none (env : NvEnv)
    (hg : env.clockInfo ClockType.graphics = none)
    (hs : env.clockInfo ClockType.sm = none) :
    currentClock env = none := by
  unfold currentClock chosenClockDomain
  rw [hg, hs]

theorem chosenClockDomain_cases (env : NvEnv) :
    chosenClockDomain env = ClockType.graphics
    ∨ chosenClockDomain env = ClockType.sm := by
  unfold chosenClockDomain
  cases hg : env.clockInfo ClockType.graphics <;>
    cases hs : env.clockInfo ClockType.sm <;> simp
  rename_i g s
  by_cases hlt : g < s <;> simp [hlt] <;> omega

theorem currentClock_eq_chosen (env : NvEnv) :
    currentClock env = env.clockInfo (chosenClockDomain env) := by
  rcases chosenClockDomain_cases env with h | h <;>
    · unfold currentClock
      rw [h]

theorem nvidia_refresh_field_validity (env : NvEnv) (d : DynamicInfo) :
    nvidiaFieldValidity env d := by
  unfold nvidiaFieldValidity
  refine ⟨currentClock_isSome env, rfl, rfl, rfl, rfl, rfl, rfl, rfl, rfl, rfl,
    rfl, rfl, rfl, rfl, rfl, rfl, rfl, rfl, rfl,
    ?_, ?_, ?_, ?_, ?_, ?_, ?_, ?_, ?_, ?_, ?_, ?_, ?_, ?_, ?_, ?_⟩
  · intro hg hs
    show (currentClock env).getD d.gpu_clock_speed = d.gpu_clock_speed
    rw [currentClock_none env hg hs]; rfl
  all_goals
    intro h
    simp [gpuinfo_nvidia_refresh_dynamic_info, h]

theorem tpu_refresh_field_validity (tc : Int) (table : List TpuChipUsageData)
    (did : Int) (d : DynamicInfo) (h : flagsClear d = true) :
    tpuFieldValidity tc table did d := by
  simp only [flagsClear, Bool.and_eq_true, Bool.not_eq_true'] at h
  obtain ⟨⟨⟨⟨⟨⟨⟨⟨⟨⟨⟨⟨⟨⟨⟨⟨⟨⟨h1, h2⟩, h3⟩, h4⟩, h5⟩, h6⟩, h7⟩, h8⟩, h9⟩,
    h10⟩, h11⟩, h12⟩, h13⟩, h14⟩, h15⟩, h16⟩, h17⟩, h18⟩, h19⟩ := h
  unfold tpuFieldValidity
  by_cases hin : did ≥ tc
  · have hq : gpuinfo_tpu_refresh_dynamic_info tc table did d = d := by
      unfold gpuinfo_tpu_refresh_dynamic_info
      rw [if_pos hin]
    have hlt : decide (did < tc) = false := by
      simp [Int.not_lt.mpr hin]
    rw [hq, hlt]
    simp_all
  · have hlt : decide (did < tc) = true := by
      simp [Int.not_le.mp hin]
    cases hget : table.get? did.toNat with
    | none =>
      have hq : gpuinfo_tpu_refresh_dynamic_info tc table did d = d := by
        unfold gpuinfo_tpu_refresh_dynamic_info
        rw [if_neg hin, hget]
      rw [hq, hlt]
      simp_all
    | some u =>
      unfold gpuinfo_tpu_refresh_dynamic_info
      rw [if_neg hin, hget, hlt]
      simp_all

/-! ## Helper lemmas: device enumeration -/

theorem enum_foldl_spec (f : Nat → Option Nat) :
    ∀ (n : Nat) (mask : Nat) (devs : List Nat),
    (List.range n).foldl (enumStep f) (mask, devs)
      = (mask / 2 ^ n,
         devs ++ (List.range n).filterMap
           (fun i => if (mask / 2 ^ i) % 2 = 1 then f i else none)) := by
  intro n
  induction n with
  | zero => intro mask devs; simp
  | succ n ih =>
    intro mask devs
    rw [List.range_succ, List.foldl_append, ih, List.filterMap_append,
      List.foldl_cons, List.foldl_nil]
    unfold enumStep
    simp only
    by_cases h : (mask / 2 ^ n) % 2 = 0
    · rw [if_pos h]
      have h1 : ¬ ((mask / 2 ^ n) % 2 = 1) := by omega
      simp [h1, Nat.div_div_eq_div_mul, pow_succ]
    · rw [if_neg h]
      have h1 : (mask / 2 ^ n) % 2 = 1 := by omega
      cases hf : f n <;>
        simp [hf, h1, Nat.div_div_eq_div_mul, pow_succ]

/-! ## Helper lemmas: TPU reset and worker, process-buffer growth -/

theorem reset_false_fields (t : List TpuChipUsageData) :
    ((reset_tpu_statistics false t).map fun c => c.memory_usage)
        = List.replicate t.length 0
    ∧ ((reset_tpu_statistics false t).map fun c => c.duty_cycle_pct)
        = List.replicate t.length 0
    ∧ ((reset_tpu_statistics false t).map fun c => c.name)
        = t.map (fun c => c.name)
    ∧ ((reset_tpu_statistics false t).map fun c => c.total_memory)
        = t.map (fun c => c.total_memory)
    ∧ ((reset_tpu_statistics false t).map fun c => c.device_id)
        = t.map (fun c => c.device_id)
    ∧ (reset_tpu_statistics false t).length = t.length := by
  induction t with
  | nil => simp [reset_tpu_statistics]
  | cons c cs ih => simp_all [reset_tpu_statistics, List.replicate_succ]

theorem worker_step_fst (f0 : Nat) (t : List TpuChipUsageData) :
    (query_tpu_worker_step false f0 t).1 = min (f0 + 1) 10 := by
  unfold query_tpu_worker_step
  simp only [Bool.false_eq_true, if_false]
  split <;> rfl

theorem worker_step_failed_snd (f0 : Nat) (t : List TpuChipUsageData)
    (h : 1 ≤ f0) :
    (query_tpu_worker_step false f0 t).2 = reset_tpu_statistics false t := by
  unfold query_tpu_worker_step
  simp only [Bool.false_eq_true, if_false]
  rw [if_pos (by omega)]

theorem worker_step_snd_cases (f0 : Nat) (t : List TpuChipUsageData) :
    (query_tpu_worker_step false f0 t).2 = t
    ∨ (query_tpu_worker_step false f0 t).2 = reset_tpu_statistics false t := by
  unfold query_tpu_worker_step
  simp only [Bool.false_eq_true, if_false]
  split
  · exact Or.inr rfl
  · exact Or.inl rfl

theorem reset_true_eq (t : List TpuChipUsageData) :
    reset_tpu_statistics true t = t.map (fun _ => blankChip) := rfl

theorem grow_spec (inc off t size : Nat) (hinc : 0 < inc) :
    (∃ n, growProcessBuffer inc off t size = size + n * inc)
    ∧ t ≤ growProcessBuffer inc off t size - off
    ∧ size ≤ growProcessBuffer inc off t size := by
  rw [growProcessBuffer.eq_def]
  split
  · obtain ⟨⟨n, hn⟩, h2, h3⟩ := grow_spec inc off t (size + inc) hinc
    exact ⟨⟨n + 1, by rw [hn]; ring⟩, h2, by omega⟩
  · exact ⟨⟨0, by omega⟩, by omega, Nat.le_refl size⟩
termination_by off + t - size
decreasing_by omega

/-! ## Helper lemmas: the TPU poll cycle -/

theorem populateLoop_invariants (lines : List String) :
    ∀ (id : Nat) (st : TpuState),
    0 < st.chipCount →
    (id = 0 → lines.head? ≠ some tpuSentinel) →
    id ≤ st.chipCount.toNat →
    ((populateLoop lines id st).1 = min (id + lines.length) st.chipCount.toNat
     ∧ (populateLoop lines id st).2.chipCount = st.chipCount
     ∧ (populateLoop lines id st).2.threadShouldExit = st.threadShouldExit
     ∧ (populateLoop lines id st).2.table.length = st.table.length) := by
  induction lines with
  | nil =>
    intro id st hpos hsent hle
    rw [show populateLoop [] id st = (id, st) from rfl]
    refine ⟨?_, rfl, rfl, rfl⟩
    simp only [List.length_nil]
    omega
  | cons line rest ih =>
    intro id st hpos hsent hle
    by_cases hstop : st.chipCount = 0 ∨ (id : Int) ≥ st.chipCount
    · have hres : populateLoop (line :: rest) id st = (id, st) := by
        simp only [populateLoop]
        rw [if_pos hstop]
      have hid : id = st.chipCount.toNat := by
        rcases hstop with h0 | h0 <;> omega
      rw [hres]
      refine ⟨?_, rfl, rfl, rfl⟩
      simp only [List.length_cons]
      omega
    · push_neg at hstop
      have hidlt : id < st.chipCount.toNat := by omega
      have hns : ¬ (id = 0 ∧ line = tpuSentinel) := by
        rintro ⟨h0, hline⟩
        exact hsent h0 (by rw [hline]; rfl)
      cases hp : parseLine line with
      | some d =>
        have hres : populateLoop (line :: rest) id st
            = populateLoop rest (id + 1) { st with table := st.table.set id d } := by
          simp only [populateLoop]
          rw [if_neg (by push_neg; exact hstop), if_neg hns, hp]
        rw [hres]
        obtain ⟨q1, q2, q3, q4⟩ :=
          ih (id + 1) { st with table := st.table.set id d }
            hpos (fun h0 => absurd h0 (by omega))
            (by show id + 1 ≤ st.chipCount.toNat; omega)
        refine ⟨?_, q2, q3, by rw [q4]; exact List.length_set ..⟩
        rw [q1]
        simp only [List.length_cons]
        omega
      | none =>
        have hres : populateLoop (line :: rest) id st
            = populateLoop rest (id + 1) st := by
          simp only [populateLoop]
          rw [if_neg (by push_neg; exact hstop), if_neg hns, hp]
        rw [hres]
        obtain ⟨q1, q2, q3, q4⟩ :=
          ih (id + 1) st hpos (fun h0 => absurd h0 (by omega)) (by omega)
        refine ⟨?_, q2, q3, q4⟩
        rw [q1]
        simp only [List.length_cons]
        omega

theorem populateLoop_slots (lines : List String) :
    ∀ (id : Nat) (st : TpuState) (j : Nat),
    0 < st.chipCount →
    (id = 0 → lines.head? ≠ some tpuSentinel) →
    id ≤ st.chipCount.toNat →
    st.chipCount.toNat ≤ st.table.length →
    (populateLoop lines id st).2.table[j]?
      = (if id ≤ j ∧ j < min (id + lines.length) st.chipCount.toNat then
          (match parseLine (lines.getD (j - id) "") with
           | some d => some d
           | none => st.table[j]?)
         else st.table[j]?) := by
  induction lines with
  | nil =>
    intro id st j hpos hsent hle hlen
    rw [show populateLoop [] id st = (id, st) from rfl,
      if_neg (by simp only [List.length_nil]; omega)]
  | cons line rest ih =>
    intro id st j hpos hsent hle hlen
    by_cases hstop : st.chipCount = 0 ∨ (id : Int) ≥ st.chipCount
    · have hres : populateLoop (line :: rest) id st = (id, st) := by
        simp only [populateLoop]
        rw [if_pos hstop]
      have hid : id = st.chipCount.toNat := by
        rcases hstop with h0 | h0 <;> omega
      rw [hres, if_neg (by omega)]
    · push_neg at hstop
      have hidlt : id < st.chipCount.toNat := by omega
      have hns : ¬ (id = 0 ∧ line = tpuSentinel) := by
        rintro ⟨h0, hline⟩
        exact hsent h0 (by rw [hline]; rfl)
      cases hp : parseLine line with
      | some d =>
        have hres : populateLoop (line :: rest) id st
            = populateLoop rest (id + 1) { st with table := st.table.set id d } := by
          simp only [populateLoop]
          rw [if_neg (by push_neg; exact hstop), if_neg hns, hp]
        rw [hres,
          ih (id + 1) { st with table := st.table.set id d } j hpos
            (fun h0 => absurd h0 (by omega))
            (by show id + 1 ≤ st.chipCount.toNat; omega)
            (by show st.chipCount.toNat ≤ (st.table.set id d).length
                rw [List.length_set]; omega)]
        by_cases hj : j = id
        · subst hj
          rw [if_neg (by omega), if_pos (by simp only [List.length_cons]; omega)]
          have hgd : (line :: rest).getD (j - j) "" = line := by
            simp only [Nat.sub_self, List.getD_cons_zero]
          rw [hgd, hp]
          simp only
          rw [List.getElem?_set]
          rw [if_pos rfl, if_pos (by omega)]
        · have hset : (st.table.set id d)[j]? = st.table[j]? := by
            rw [List.getElem?_set, if_neg (by omega)]
          by_cases hin : (id + 1 ≤ j ∧ j < min (id + 1 + rest.length) st.chipCount.toNat)
          · rw [if_pos hin,
              if_pos (by simp only [List.length_cons]; omega)]
            have hgd : (line :: rest).getD (j - id) ""
                = rest.getD (j - (id + 1)) "" := by
              have hshift : j - id = (j - (id + 1)) + 1 := by omega
              rw [hshift, List.getD_cons_succ]
            rw [hgd]
            cases parseLine (rest.getD (j - (id + 1)) "") <;> simp only [hset]
          · rw [if_neg hin, if_neg (by simp only [List.length_cons]; omega), hset]
      | none =>
        have hres : populateLoop (line :: rest) id st
            = populateLoop rest (id + 1) st := by
          simp only [populateLoop]
          rw [if_neg (by push_neg; exact hstop), if_neg hns, hp]
        rw [hres, ih (id + 1) st j hpos (fun h0 => absurd h0 (by omega))
          (by omega) hlen]
        by_cases hj : j = id
        · subst hj
          rw [if_neg (by omega), if_pos (by simp only [List.length_cons]; omega)]
          have hgd : (line :: rest).getD (j - j) "" = line := by
            simp only [Nat.sub_self, List.getD_cons_zero]
          rw [hgd, hp]
        · by_cases hin : (id + 1 ≤ j ∧ j < min (id + 1 + rest.length) st.chipCount.toNat)
          · rw [if_pos hin,
              if_pos (by simp only [List.length_cons]; omega)]
            have hgd : (line :: rest).getD (j - id) ""
                = rest.getD (j - (id + 1)) "" := by
              have hshift : j - id = (j - (id + 1)) + 1 := by omega
              rw [hshift, List.getD_cons_succ]
            rw [hgd]
          · rw [if_neg hin, if_neg (by simp only [List.length_cons]; omega)]

/-! ## Claims -/

/-- Claim C1: across any sequence of calls to the process-utilization
sampler the device's watermark `last_utilization_timestamp` is
non-decreasing, and each call leaves it equal to the running maximum of
its previous value and the timestamps of exactly that call's accepted
samples (`callAccepted` filters by `acceptedSample`: PID discovered,
utilization fields at most 100, timestamp strictly above the watermark
in effect when the request was issued); rejected samples never
contribute. -/
theorem watermark_accepted_max_C1 (available : Bool)
    (queryResult : Option (List Sample)) (wm : Nat) (ps : List GpuProcess)
    (calls : List SamplerCall) :
    (gpuinfo_nvidia_get_process_utilization available queryResult wm ps).2
      = (callAccepted available queryResult wm ps).foldl
          (fun a s => max a s.timeStamp) wm
    ∧ wm ≤ runSampler calls wm :=
  ⟨sampler_call_watermark available queryResult wm ps,
   runSampler_monotone calls wm⟩

/-- Claim C2: a returned utilization sample is matched to a process
entry exactly when its PID occurs in the freshly discovered list, its
compute, encode and decode utilization fields are each at most 100, and
its timestamp is strictly greater than the watermark in effect when the
request was issued (`acceptedSample`); an accepted sample overwrites the
first PID-matching entry's gpu/encode/decode usage fields and marks them
valid (`specAcceptUpdate`/`updateProcess`), and a rejected sample leaves
the process list untouched. -/
theorem sample_acceptance_C2 (wm : Nat) (s : Sample) (ps : List GpuProcess) :
    (matchSampleAux wm s ps).2 = acceptedSample wm ps s
    ∧ (matchSampleAux wm s ps).1
        = (if acceptedSample wm ps s then specAcceptUpdate s ps else ps) := by
  constructor
  · rw [matchSampleAux_matched, any_acceptCond]
  · exact matchSampleAux_fst wm s ps

/-- Claim C3, counterexample: the TPU refresh does not reset the validity
flags at the start of a refresh.  With the backend self-disabled
(`tpu_chip_count = 0`) a refresh leaves a previously set
`gpu_util_rate` flag set even though no query succeeded this poll,
contradicting the claim's "the flags are reset at the start of each
refresh ... for every vendor backend". -/
theorem tpu_stale_flag_counterexample_C3 :
    gpuinfo_tpu_refresh_dynamic_info 0 [] 0
        { dyn0 with gpu_util_rate_valid := true }
      = { dyn0 with gpu_util_rate_valid := true }
    ∧ ({ dyn0 with gpu_util_rate_valid := true } : DynamicInfo).gpu_util_rate_valid
        = true := by
  constructor
  · unfold gpuinfo_tpu_refresh_dynamic_info
    rw [if_pos (by omega : (0 : Int) ≥ 0)]
  · rfl

/-- Claim C3, amended: for the NVIDIA backend the refresh resets all
validity flags and then sets each flag exactly when its underlying query
succeeded this poll, failed queries leaving the stored value untouched
(`nvidiaFieldValidity`); the TPU refresh performs no reset of its own,
but for a caller-supplied zero-initialized validity set (the calling
convention the spec requires) a flag is set after the refresh exactly
when its field was populated from the shared table this poll — the five
published fields when the device index is within the chip count and the
slot read succeeds, and no flag otherwise (`tpuFieldValidity`). -/
theorem validity_flags_amended_C3 (env : NvEnv) (d : DynamicInfo)
    (tc : Int) (table : List TpuChipUsageData) (did : Int) (d' : DynamicInfo)
    (h : flagsClear d' = true) :
    nvidiaFieldValidity env d ∧ tpuFieldValidity tc table did d' :=
  ⟨nvidia_refresh_field_validity env d,
   tpu_refresh_field_validity tc table did d' h⟩

/-- Witness for the amended C3 at a concrete environment, device record
and TPU state. -/
theorem validity_flags_amended_C3_witness :
    flagsClear dyn0 = true
    ∧ (nvidiaFieldValidity envClockExample dyn0
        ∧ tpuFieldValidity 1 [chip1Data] 0 dyn0) :=
  ⟨by decide,
   validity_flags_amended_C3 envClockExample dyn0 1 [chip1Data] 0 dyn0 (by decide)⟩

/-- Claim C5: with a loaded library and a successful device count `n`,
enumeration consumes exactly one mask bit per native index (the returned
mask is the input shifted right `n` times), appends — in resolution
order — exactly the handles of indices whose mask bit is set and whose
handle resolution succeeds (a failed resolution is skipped without
aborting the remaining indices, as the `filterMap` form shows), and a
zero device count yields success with an empty list. -/
theorem device_enumeration_C5 (n : Nat) (handleByIndex : Nat → Option Nat)
    (mask : Nat) :
    gpuinfo_nvidia_get_device_handles true (some n) handleByIndex mask
      = some (((List.range n).filterMap fun i =>
            if (mask / 2 ^ i) % 2 = 1 then handleByIndex i else none),
          mask / 2 ^ n)
    ∧ gpuinfo_nvidia_get_device_handles true (some 0) handleByIndex mask
        = some ([], mask) := by
  constructor
  · rw [show gpuinfo_nvidia_get_device_handles true (some n) handleByIndex mask
        = some (((List.range n).foldl (enumStep handleByIndex) (mask, [])).2,
            ((List.range n).foldl (enumStep handleByIndex) (mask, [])).1) from rfl]
    rw [enum_foldl_spec]
    simp
  · rw [show gpuinfo_nvidia_get_device_handles true (some 0) handleByIndex mask
        = some (((List.range 0).foldl (enumStep handleByIndex) (mask, [])).2,
            ((List.range 0).foldl (enumStep handleByIndex) (mask, [])).1) from rfl]
    rw [enum_foldl_spec]
    simp

/-- Claim C6: when both current-clock queries succeed the reported
current GPU clock is the larger of the graphics and SM readings and the
chosen domain is the one that produced it; when only one succeeds that
reading is used; when neither succeeds the field stays invalid; and the
max-clock query is always issued against `chosenClockDomain` — the same
domain the current-speed value was taken from. -/
theorem clock_domain_selection_C6 (env : NvEnv) (d : DynamicInfo)
    (a b : Nat) :
    (env.clockInfo ClockType.graphics = some a →
      env.clockInfo ClockType.sm = some b →
      (gpuinfo_nvidia_refresh_dynamic_info env d).gpu_clock_speed = max a b
      ∧ chosenClockDomain env
          = (if a < b then ClockType.sm else ClockType.graphics))
    ∧ (env.clockInfo ClockType.graphics = some a →
        env.clockInfo ClockType.sm = none →
        (gpuinfo_nvidia_refresh_dynamic_info env d).gpu_clock_speed = a
        ∧ chosenClockDomain env = ClockType.graphics)
    ∧ (env.clockInfo ClockType.graphics = none →
        env.clockInfo ClockType.sm = some b →
        (gpuinfo_nvidia_refresh_dynamic_info env d).gpu_clock_speed = b
        ∧ chosenClockDomain env = ClockType.sm)
    ∧ (env.clockInfo ClockType.graphics = none →
        env.clockInfo ClockType.sm = none →
        (gpuinfo_nvidia_refresh_dynamic_info env d).gpu_clock_speed_valid = false)
    ∧ currentClock env = env.clockInfo (chosenClockDomain env)
    ∧ (gpuinfo_nvidia_refresh_dynamic_info env d).gpu_clock_speed_max
        = (env.maxClockInfo (chosenClockDomain env)).getD d.gpu_clock_speed_max
    ∧ (gpuinfo_nvidia_refresh_dynamic_info env d).gpu_clock_speed_max_valid
        = (env.maxClockInfo (chosenClockDomain env)).isSome := by
  refine ⟨?_, ?_, ?_, ?_, currentClock_eq_chosen env, rfl, rfl⟩
  · intro hg hs
    have hc : chosenClockDomain env
        = (if a < b then ClockType.sm else ClockType.graphics) := by
      unfold chosenClockDomain
      rw [hg, hs]
    refine ⟨?_, hc⟩
    show (currentClock env).getD d.gpu_clock_speed = max a b
    rw [currentClock_eq_chosen env, hc]
    by_cases hab : a < b
    · rw [if_pos hab, hs]
      exact (Nat.max_eq_right (Nat.le_of_lt hab)).symm
    · rw [if_neg hab, hg]
      exact (Nat.max_eq_left (Nat.le_of_not_lt hab)).symm
  · intro hg hs
    have hc : chosenClockDomain env = ClockType.graphics := by
      unfold chosenClockDomain
      rw [hg, hs]
    refine ⟨?_, hc⟩
    show (currentClock env).getD d.gpu_clock_speed = a
    rw [currentClock_eq_chosen env, hc, hg]
    rfl
  · intro hg hs
    have hc : chosenClockDomain env = ClockType.sm := by
      unfold chosenClockDomain
      rw [hg, hs]
    refine ⟨?_, hc⟩
    show (currentClock env).getD d.gpu_clock_speed = b
    rw [currentClock_eq_chosen env, hc, hs]
    rfl
  · intro hg hs
    show (currentClock env).isSome = false
    rw [currentClock_none env hg hs]
    rfl

/-- Witness for C6: the spec's 1000/1200 example — both domains valid,
the reported clock is the SM reading 1200 and the max clock is queried
from (and answered by) the SM domain. -/
theorem clock_domain_selection_C6_witness :
    envClockExample.clockInfo ClockType.graphics = some 1000
    ∧ envClockExample.clockInfo ClockType.sm = some 1200
    ∧ (gpuinfo_nvidia_refresh_dynamic_info envClockExample dyn0).gpu_clock_speed
        = max 1000 1200
    ∧ chosenClockDomain envClockExample
        = (if 1000 < 1200 then ClockType.sm else ClockType.graphics)
    ∧ (gpuinfo_nvidia_refresh_dynamic_info envClockExample dyn0).gpu_clock_speed_max
        = (envClockExample.maxClockInfo (chosenClockDomain envClockExample)).getD
            dyn0.gpu_clock_speed_max := by
  have h := (clock_domain_selection_C6 envClockExample dyn0 1000 1200).1 rfl rfl
  exact ⟨rfl, rfl, h.1, h.2,
    (clock_domain_selection_C6 envClockExample dyn0 1000 1200).2.2.2.2.2.1⟩

/-- Claim C7: a required entry point that fails to resolve (each is tried
through its candidate names, versioned first) fails the whole load with
the library handle closed and nulled — after which every public
operation is gated on the null handle (`gpuinfo_nvidia_get_device_handles`
with an unloaded library fails); when all required entry points resolve,
the load outcome is independent of the optional
`nvmlDeviceGetProcessUtilization` (which appears in no required
candidate list), whose absence merely leaves the capability unavailable. -/
theorem nvidia_init_load_C7 (dlopenOk : Bool) (resolve : String → Bool)
    (nvmlInitOk : Bool) :
    (allRequiredResolved resolve = false →
      gpuinfo_nvidia_init dlopenOk resolve nvmlInitOk
        = { success := false, handleOpen := false, processUtilAvailable := false })
    ∧ (∀ (dc : Option Nat) (f : Nat → Option Nat) (m : Nat),
        gpuinfo_nvidia_get_device_handles false dc f m = none)
    ∧ (allRequiredResolved resolve = true → dlopenOk = true →
        gpuinfo_nvidia_init dlopenOk resolve nvmlInitOk
          = { success := nvmlInitOk, handleOpen := true,
              processUtilAvailable := resolve optionalEntryName })
    ∧ requiredEntryCandidates.all
        (fun c => c.all fun nm => !(nm == optionalEntryName)) = true := by
  refine ⟨?_, ?_, ?_, by decide⟩
  · intro h
    cases dlopenOk <;> simp [gpuinfo_nvidia_init, h]
  · intro dc f m
    rfl
  · intro h1 h2
    subst h2
    simp [gpuinfo_nvidia_init, h1]

/-- Witness for C7: one missing required symbol
(`nvmlDeviceGetFanSpeed`) fails the load with the handle closed; a
missing optional symbol still loads successfully. -/
theorem nvidia_init_load_C7_witness :
    allRequiredResolved resolveMissingFanSpeed = false
    ∧ gpuinfo_nvidia_init true resolveMissingFanSpeed true
        = { success := false, handleOpen := false, processUtilAvailable := false }
    ∧ allRequiredResolved resolveMissingOptional = true
    ∧ gpuinfo_nvidia_init true resolveMissingOptional true
        = { success := true, handleOpen := true,
            processUtilAvailable := resolveMissingOptional optionalEntryName }
    ∧ resolveMissingOptional optionalEntryName = false := by
  refine ⟨by decide, ?_, by decide, ?_, by decide⟩
  · exact (nvidia_init_load_C7 true resolveMissingFanSpeed true).1 (by decide)
  · exact (nvidia_init_load_C7 true resolveMissingOptional true).2.2.1 (by decide) rfl

/-- Claim C4, counterexample: the scoring counter `id` is incremented for
malformed lines too, so a cycle whose second line fails to parse (the
slot it would fill keeps its old value, and only one line parses
successfully) is still scored as success for a 2-device session —
refuting "scored as success if and only if the number of parsed output
lines equals the known device count". -/
theorem tpu_malformed_scoring_counterexample_C4 :
    (populate_tpu_data [tpuLine1, "not a data line"]
        { chipCount := 2, table := [blankChip, blankChip],
          threadShouldExit := false }).1 = true
    ∧ List.countP (fun l => (parseLine l).isSome)
        [tpuLine1, "not a data line"] = 1
    ∧ ((List.countP (fun l => (parseLine l).isSome)
        [tpuLine1, "not a data line"] : Int)
        ≠ ({ chipCount := 2, table := [blankChip, blankChip],
             threadShouldExit := false } : TpuState).chipCount)
    ∧ (populate_tpu_data [tpuLine1, "not a data line"]
        { chipCount := 2, table := [blankChip, blankChip],
          threadShouldExit := false }).2.table[1]? = some blankChip := by
  refine ⟨by decide, by decide, by decide, by decide⟩

/-- Claim C4, amended: with a positive known device count and no
missing-dependency sentinel, a poll cycle is scored as success exactly
when the external source produced at least device-count output lines —
each consumed line, well-formed or not, advances the slot counter; a
line that fails the five-field `sscanf` is logged and skipped without
updating its slot and without aborting the cycle, while well-formed
line `j` overwrites slot `j`; in particular the spec's two well-formed
lines for a 2-device session update both slots and score success. -/
theorem tpu_poll_scoring_amended_C4 :
    (∀ (lines : List String) (st : TpuState),
      0 < st.chipCount →
      st.chipCount.toNat ≤ st.table.length →
      lines.head? ≠ some tpuSentinel →
      ((populate_tpu_data lines st).1
          = decide (st.chipCount ≤ (lines.length : Int))
       ∧ ∀ j : Nat,
         (populate_tpu_data lines st).2.table[j]?
           = (if j < min lines.length st.chipCount.toNat then
               (match parseLine (lines.getD j "") with
                | some d => some d
                | none => st.table[j]?)
              else st.table[j]?)))
    ∧ populate_tpu_data [tpuLine1, tpuLine2]
        { chipCount := 2, table := [blankChip, blankChip],
          threadShouldExit := false }
      = (true, { chipCount := 2, table := [chip1Data, chip2Data],
                 threadShouldExit := false }) := by
  constructor
  · intro lines st hpos hlen hsent
    constructor
    · have hne : ¬ st.chipCount ≤ 0 := by omega
      rw [show populate_tpu_data lines st
            = (decide (((populateLoop lines 0 st).1 : Int)
                = (populateLoop lines 0 st).2.chipCount),
              (populateLoop lines 0 st).2) by
          unfold populate_tpu_data; rw [if_neg hne]]
      obtain ⟨q1, q2, _, _⟩ :=
        populateLoop_invariants lines 0 st hpos (fun _ => hsent) (by omega)
      simp only [q1, q2]
      exact decide_eq_decide.mpr (by omega)
    · intro j
      have hne : ¬ st.chipCount ≤ 0 := by omega
      rw [show (populate_tpu_data lines st).2 = (populateLoop lines 0 st).2 by
          unfold populate_tpu_data; rw [if_neg hne]]
      rw [populateLoop_slots lines 0 st j hpos (fun _ => hsent) (by omega) hlen]
      simp only [Nat.zero_add, Nat.sub_zero, Nat.zero_le, true_and]
  · decide

/-- Witness for the amended C4: a 3-device session whose second line is
malformed — the cycle is still scored by lines consumed, the malformed
slot keeps its previous value, and the third (well-formed) line updates
its slot. -/
theorem tpu_poll_scoring_amended_C4_witness :
    (0 : Int) < 3
    ∧ (populate_tpu_data [tpuLine1, "not a data line", tpuLine2]
        { chipCount := 3, table := [blankChip, blankChip, blankChip],
          threadShouldExit := false }).1 = true
    ∧ (populate_tpu_data [tpuLine1, "not a data line", tpuLine2]
        { chipCount := 3, table := [blankChip, blankChip, blankChip],
          threadShouldExit := false }).2.table[1]? = some blankChip
    ∧ (populate_tpu_data [tpuLine1, "not a data line", tpuLine2]
        { chipCount := 3, table := [blankChip, blankChip, blankChip],
          threadShouldExit := false }).2.table[2]? = some chip2Data := by
  refine ⟨by decide, ?_, ?_, ?_⟩
  · have h := (tpu_poll_scoring_amended_C4.1
      [tpuLine1, "not a data line", tpuLine2]
      { chipCount := 3, table := [blankChip, blankChip, blankChip],
        threadShouldExit := false }
      (by decide) (by decide) (by decide)).1
    rw [h]; decide
  · have h := (tpu_poll_scoring_amended_C4.1
      [tpuLine1, "not a data line", tpuLine2]
      { chipCount := 3, table := [blankChip, blankChip, blankChip],
        threadShouldExit := false }
      (by decide) (by decide) (by decide)).2 1
    rw [h]; decide
  · have h := (tpu_poll_scoring_amended_C4.1
      [tpuLine1, "not a data line", tpuLine2]
      { chipCount := 3, table := [blankChip, blankChip, blankChip],
        threadShouldExit := false }
      (by decide) (by decide) (by decide)).2 2
    rw [h]; decide

/-- Claim C8: after two consecutive poll cycles scored as failed, every
device slot's memory-usage and duty-cycle fields are zero while the
name, total-memory and device-id fields are exactly what they were
before (soft reset); only the full reset — used at startup — also clears
the name (to "N/A"), device id and total memory of every slot. -/
theorem tpu_soft_reset_C8 (f0 : Nat) (table : List TpuChipUsageData) :
    ((query_tpu_worker_step false (query_tpu_worker_step false f0 table).1
        (query_tpu_worker_step false f0 table).2).2.map fun c => c.memory_usage)
      = List.replicate table.length 0
    ∧ ((query_tpu_worker_step false (query_tpu_worker_step false f0 table).1
        (query_tpu_worker_step false f0 table).2).2.map fun c => c.duty_cycle_pct)
      = List.replicate table.length 0
    ∧ ((query_tpu_worker_step false (query_tpu_worker_step false f0 table).1
        (query_tpu_worker_step false f0 table).2).2.map fun c => c.name)
      = table.map (fun c => c.name)
    ∧ ((query_tpu_worker_step false (query_tpu_worker_step false f0 table).1
        (query_tpu_worker_step false f0 table).2).2.map fun c => c.total_memory)
      = table.map (fun c => c.total_memory)
    ∧ ((query_tpu_worker_step false (query_tpu_worker_step false f0 table).1
        (query_tpu_worker_step false f0 table).2).2.map fun c => c.device_id)
      = table.map (fun c => c.device_id)
    ∧ reset_tpu_statistics true table = table.map (fun _ => blankChip) := by
  have hfst := worker_step_fst f0 table
  have hsnd : (query_tpu_worker_step false (query_tpu_worker_step false f0 table).1
      (query_tpu_worker_step false f0 table).2).2
        = reset_tpu_statistics false (query_tpu_worker_step false f0 table).2 := by
    apply worker_step_failed_snd
    rw [hfst]; omega
  rcases worker_step_snd_cases f0 table with h1 | h1 <;>
    rw [hsnd, h1]
  · obtain ⟨a1, a2, a3, a4, a5, _⟩ := reset_false_fields table
    exact ⟨a1, a2, a3, a4, a5, reset_true_eq table⟩
  · obtain ⟨a1, a2, a3, a4, a5, a6⟩ := reset_false_fields table
    obtain ⟨b1, b2, b3, b4, b5, _⟩ :=
      reset_false_fields (reset_tpu_statistics false table)
    refine ⟨by rw [b1, a6], by rw [b2, a6], by rw [b3, a3],
      by rw [b4, a4], by rw [b5, a5], reset_true_eq table⟩

/-- Claim C9: under the claim's vendor model (insufficient-size exactly
when the offered capacity is below the true count) and a positive
increment, each growth loop terminates after finitely many fixed-size
increments; the graphics loop ends with capacity at least the true
graphics count, the compute loop — offered the storage after the
graphics entries — ends with total capacity at least the combined true
count, and the reported per-category and total counts are the true ones. -/
theorem process_buffer_growth_C9 (inc g c size0 : Nat) (hinc : 0 < inc) :
    (∃ n1 : Nat, growProcessBuffer inc 0 g size0 = size0 + n1 * inc)
    ∧ (∃ n2 : Nat, (gpuinfo_nvidia_get_running_processes inc g c size0).array_size
        = growProcessBuffer inc 0 g size0 + n2 * inc)
    ∧ g ≤ growProcessBuffer inc 0 g size0
    ∧ g + c ≤ (gpuinfo_nvidia_get_running_processes inc g c size0).array_size
    ∧ (gpuinfo_nvidia_get_running_processes inc g c size0).graphical_count = g
    ∧ (gpuinfo_nvidia_get_running_processes inc g c size0).compute_count = c
    ∧ (gpuinfo_nvidia_get_running_processes inc g c size0).processes_count = g + c := by
  obtain ⟨he1, hg1, hs1⟩ := grow_spec inc 0 g size0 hinc
  obtain ⟨he2, hg2, hs2⟩ :=
    grow_spec inc g c (growProcessBuffer inc 0 g size0) hinc
  have harr : (gpuinfo_nvidia_get_running_processes inc g c size0).array_size
      = growProcessBuffer inc g c (growProcessBuffer inc 0 g size0) := rfl
  refine ⟨he1, by rw [harr]; exact he2, by omega, by omega, rfl, rfl, rfl⟩

/-- Witness for C9 at increment 5, true counts 12 and 7, initial
capacity 0. -/
theorem process_buffer_growth_C9_witness :
    0 < 5
    ∧ 12 ≤ growProcessBuffer 5 0 12 0
    ∧ 12 + 7 ≤ (gpuinfo_nvidia_get_running_processes 5 12 7 0).array_size
    ∧ (gpuinfo_nvidia_get_running_processes 5 12 7 0).processes_count = 12 + 7 :=
  ⟨by decide,
   (process_buffer_growth_C9 5 12 7 0 (by decide)).2.2.1,
   (process_buffer_growth_C9 5 12 7 0 (by decide)).2.2.2.1,
   (process_buffer_growth_C9 5 12 7 0 (by decide)).2.2.2.2.2.2⟩

/-- Claim C10: when a TPU device's index is at or beyond the current
`tpu_chip_count`, the refresh returns immediately, leaving every field
and validity flag of the dynamic-info record exactly as it was — so
after the backend self-disables by zeroing the chip count, refreshes are
no-ops rather than out-of-bounds table reads. -/
theorem tpu_refresh_out_of_range_noop_C10 (chipCount : Int)
    (table : List TpuChipUsageData) (device_id : Int) (d : DynamicInfo)
    (h : chipCount ≤ device_id) :
    gpuinfo_tpu_refresh_dynamic_info chipCount table device_id d = d := by
  unfold gpuinfo_tpu_refresh_dynamic_info
  rw [if_pos h]

/-- Witness for C10: the self-disabled state (chip count zero), device
index 0. -/
theorem tpu_refresh_out_of_range_noop_C10_witness :
    (0 : Int) ≤ (0 : Int)
    ∧ gpuinfo_tpu_refresh_dynamic_info 0 [] 0 dyn0 = dyn0 :=
  ⟨by decide, tpu_refresh_out_of_range_noop_C10 0 [] 0 dyn0 (by decide)⟩

end Nvtop
